import Mathlib

/-!
Verification of the listener-matcher subsystem of bolt-python
(src/slack_bolt/listener_matcher/builtins.py).

The embedding is shallow: Python dicts become association lists over a
Value type, compiled regular expressions become an abstract match
function tried at every start position (the semantics of an unanchored
search), fallible Python code (KeyError, TypeError, IndexError,
AttributeError, BoltError) becomes Except-valued functions, and the
duck-typed constraint argument (str, compiled Pattern, dict, None, or
anything else) becomes the inductive type Constraint.

The payload classifiers imported from slack_bolt.request.payload_utils
are not part of the snapshot; they are modelled from the spec (each is
marked with a doc comment starting with "Modelled from the spec:").
Everything else is translated from builtins.py.
-/

namespace SlackBolt

/-- A compiled regular expression, abstracted by the function that tells
whether the pattern matches when anchored at a given character position
of a given string. An unanchored search succeeds iff the pattern matches
at some start position. -/
structure Pattern where
  matchAt : String → Nat → Bool

/-- Unanchored search, the semantics of Python re.Pattern.search: the
pattern is tried at every start position 0..length of the string. -/
def Pattern.search (p : Pattern) (s : String) : Bool :=
  (List.range (s.length + 1)).any (fun i => p.matchAt s i)

/-- A decoded payload value: string, nested mapping, list, Python None,
or any other (non-string, non-container) object. -/
inductive Value where
  | vstr (s : String)
  | vdict (fields : List (String × Value))
  | vlist (items : List Value)
  | vnull
  | vother

/-- A decoded payload body: a Python dict at top level. -/
abbrev Body := List (String × Value)

/-- A constraint argument as supplied by a handler author: a literal
string, a compiled pattern, a structured constraint dict, Python None,
or a value of any other type. -/
inductive Constraint where
  | cstr (s : String)
  | cpat (p : Pattern)
  | cdict (entries : List (String × Constraint))
  | cnone
  | cother

/-- Errors that evaluation of a built predicate can raise. boltError
carries the offending constraint, mirroring the message of
BoltError in the final branch of the function named with an underscore
followed by the word matches in builtins.py. -/
inductive PyError where
  | keyError (k : String)
  | typeError
  | indexError
  | attributeError
  | boltError (offending : Constraint)

/-- Errors a builder can raise at registration time. invalidShape
mirrors the BoltError message naming the category and the offending
constraint; unsupportedType mirrors the BoltError raised for an
unsupported type discriminator in the action builder; keyError mirrors
a KeyError on the constraint dict; typeError mirrors the TypeError of a
membership test on a non-container. -/
inductive BuildError where
  | invalidShape (category : String) (offending : Constraint)
  | unsupportedType (t : Constraint)
  | keyError (k : String)
  | typeError

/-- First-match association-list lookup: the model of Python dict access
(keys of a Python dict are unique, so first match is the match). -/
def dlookup {β : Type} : List (String × β) → String → Option β
  | [], _ => none
  | (k', v) :: rest, k => if k' == k then some v else dlookup rest k

/-- Python membership test on a dict. -/
def hasKey (d : List (String × Value)) (k : String) : Bool :=
  (dlookup d k).isSome

/-- Python equality between a payload value and a string literal: true
only when the value is that very string (comparison of a string with a
value of a different type is False, never an error). -/
def valueEqStr : Value → String → Bool
  | .vstr s, t => s == t
  | _, _ => false

/-- Python dict indexing: KeyError when the key is absent. -/
def ditem (d : List (String × Value)) (k : String) : Except PyError Value :=
  match dlookup d k with
  | some v => .ok v
  | none => .error (.keyError k)

/-- Python indexing of an arbitrary value with a string key: dict
indexing when the value is a dict, TypeError otherwise. -/
def vitem (v : Value) (k : String) : Except PyError Value :=
  match v with
  | .vdict d => ditem d k
  | _ => .error .typeError

/-- Python membership test on an arbitrary value that is known to be a
dict at every use site in the source (guarded by a preceding indexing
of the same value). -/
def vHasKey (v : Value) (k : String) : Bool :=
  match v with
  | .vdict d => hasKey d k
  | _ => false

/-- Python dict.get on an arbitrary value: AttributeError when the value
is not a dict. -/
def vget (v : Value) (k : String) : Except PyError (Option Value) :=
  match v with
  | .vdict d => .ok (dlookup d k)
  | _ => .error .attributeError

/-- Indexing a constraint dict at evaluation time: KeyError when the key
is absent. -/
def citem (d : List (String × Constraint)) (k : String) : Except PyError Constraint :=
  match dlookup d k with
  | some c => .ok c
  | none => .error (.keyError k)

/-- Indexing a constraint dict at build time: KeyError when the key is
absent. -/
def citemB (d : List (String × Constraint)) (k : String) : Except BuildError Constraint :=
  match dlookup d k with
  | some c => .ok c
  | none => .error (.keyError k)

/-- Modelled from the spec: the shared type-discriminator test of the
payload classifiers (slack_bolt.request.payload_utils is not in the
snapshot): the top-level "type" field equals the expected kind name. -/
def _is_expected_type (body : Body) (expected : String) : Bool :=
  match dlookup body "type" with
  | some v => valueEqStr v expected
  | none => false

/-- Modelled from the spec: a block-actions payload is identified by its
type discriminator and the presence of its actions list. -/
def is_block_actions (body : Body) : Bool :=
  _is_expected_type body "block_actions" && hasKey body "actions"

/-- Modelled from the spec: an attachment-action payload is identified
by the interactive_message type discriminator and its callback_id. -/
def is_attachment_action (body : Body) : Bool :=
  _is_expected_type body "interactive_message" && hasKey body "callback_id"

/-- Modelled from the spec: a dialog-submission payload is identified by
its type discriminator and its callback_id. -/
def is_dialog_submission (body : Body) : Bool :=
  _is_expected_type body "dialog_submission" && hasKey body "callback_id"

/-- Modelled from the spec: a dialog-cancellation payload is identified
by its type discriminator and its callback_id. -/
def is_dialog_cancellation (body : Body) : Bool :=
  _is_expected_type body "dialog_cancellation" && hasKey body "callback_id"

/-- Modelled from the spec: a workflow-step-edit payload is identified
by its type discriminator and its callback_id. -/
def is_workflow_step_edit (body : Body) : Bool :=
  _is_expected_type body "workflow_step_edit" && hasKey body "callback_id"

/-- Modelled from the spec: a global shortcut is identified by the
shortcut type discriminator and its callback_id. -/
def is_global_shortcut (body : Body) : Bool :=
  _is_expected_type body "shortcut" && hasKey body "callback_id"

/-- Modelled from the spec: a message shortcut is identified by the
message_action type discriminator and its callback_id. -/
def is_message_shortcut (body : Body) : Bool :=
  _is_expected_type body "message_action" && hasKey body "callback_id"

/-- Modelled from the spec: any shortcut kind. -/
def is_shortcut (body : Body) : Bool :=
  is_global_shortcut body || is_message_shortcut body

/-- Modelled from the spec: an event payload is identified by the
event_callback type discriminator and the presence of its event
envelope. -/
def is_event (body : Body) : Bool :=
  _is_expected_type body "event_callback" && hasKey body "event"

/-- Modelled from the spec: a slash-command payload is identified by the
presence of the slash-command token. -/
def is_slash_command (body : Body) : Bool :=
  hasKey body "command"

/-- Modelled from the spec: a view-submission payload is identified by
its type discriminator and the presence of its view. -/
def is_view_submission (body : Body) : Bool :=
  _is_expected_type body "view_submission" && hasKey body "view"

/-- Modelled from the spec: a view-closed payload is identified by its
type discriminator and the presence of its view. -/
def is_view_closed (body : Body) : Bool :=
  _is_expected_type body "view_closed" && hasKey body "view"

/-- Modelled from the spec: a block-suggestion payload is identified by
its type discriminator and its action_id. -/
def is_block_suggestion (body : Body) : Bool :=
  _is_expected_type body "block_suggestion" && hasKey body "action_id"

/-- Modelled from the spec: a dialog-suggestion payload is identified by
its type discriminator and its callback_id. -/
def is_dialog_suggestion (body : Body) : Bool :=
  _is_expected_type body "dialog_suggestion" && hasKey body "callback_id"

/-- Modelled from the spec: a workflow-step-save payload is a view
submission whose view is a workflow step. -/
def is_workflow_step_save (body : Body) : Bool :=
  is_view_submission body &&
    (match dlookup body "view" with
      | some (.vdict v) =>
        (match dlookup v "type" with
          | some w => valueEqStr w "workflow_step"
          | none => false)
      | _ => false)

/-- Modelled from the spec: extracts the singular action entry of a
block-actions payload, the first element of its actions list. -/
def to_action (body : Body) : Except PyError Value := do
  let actions ← ditem body "actions"
  match actions with
  | .vlist (a :: _) => .ok a
  | .vlist [] => .error .indexError
  | _ => .error .typeError

/-- The pattern-match primitive of builtins.py: False when the
constraint or the input is None; exact string equality for a string
constraint; unanchored search for a compiled pattern (TypeError on a
non-string input); BoltError naming the offending constraint for any
other constraint type. -/
def _matches (str_or_pattern : Constraint) (input : Option Value) : Except PyError Bool :=
  match str_or_pattern, input with
  | .cnone, _ => .ok false
  | _, none => .ok false
  | _, some .vnull => .ok false
  | .cstr s, some v => .ok (valueEqStr v s)
  | .cpat p, some v =>
    (match v with
      | .vstr s => .ok (p.search s)
      | _ => .error .typeError)
  | c, some _ => .error (.boltError c)

/-- The result a built predicate hands to the dispatcher: a Python bool,
or Python None for the one code path that falls off the end of a
function (treated as falsy by the caller). -/
abbrev MRes := Except PyError (Option Bool)

/-- A built predicate over a raw payload body. -/
abbrev MatcherFun := Body → MRes

/-- Wraps a predicate whose Python counterpart returns a genuine bool. -/
def asM (f : Body → Except PyError Bool) : MatcherFun :=
  fun b => (f b).map some

/-- Modelled from the spec: the deferred result of an asynchronous
matcher (async_builtins.py is not in the snapshot); the dispatcher must
await it before reading the boolean. -/
structure Awaitable (α : Type) where
  awaited : α

/-- A built listener matcher: the synchronous form runs the predicate to
completion; the asynchronous form returns a deferred result. -/
inductive BuiltListenerMatcher where
  | sync (func : MatcherFun)
  | asyncMatcher (func : Body → Awaitable MRes)

/-- The coroutine wrapper defined inside build_listener_matcher: awaiting
async_fun body yields exactly func body. -/
def async_fun (func : MatcherFun) (body : Body) : Awaitable MRes :=
  ⟨func body⟩

/-- build_listener_matcher from builtins.py: wraps the predicate as an
asynchronous matcher when the asyncio flag is set, as a synchronous one
otherwise. -/
def build_listener_matcher (func : MatcherFun) (useAsync : Bool) : BuiltListenerMatcher :=
  if useAsync then .asyncMatcher (async_fun func) else .sync func

/-- Evaluates a built matcher on a body, awaiting the asynchronous form. -/
def evalBuilt (m : BuiltListenerMatcher) (body : Body) : MRes :=
  match m with
  | .sync f => f body
  | .asyncMatcher f => (f body).awaited

/-- The predicate closed over by the event builder for a string or
pattern constraint. -/
def event_type_func (event_type : Constraint) (body : Body) : Except PyError Bool :=
  if is_event body then do
    let ev ← ditem body "event"
    let et ← vitem ev "type"
    _matches event_type (some et)
  else .ok false

/-- The predicate closed over by the event builder for a dict constraint
containing a type key: the event type must match; a subtype entry that
is None demands the absence of a subtype field; any other subtype entry
demands a present, matching subtype. -/
def event_dict_func (constraints : List (String × Constraint)) (body : Body) : Except PyError Bool :=
  if is_event body then do
    let ev ← ditem body "event"
    let ct ← citem constraints "type"
    let et ← vitem ev "type"
    let tm ← _matches ct (some et)
    if !tm then .ok false
    else
      match dlookup constraints "subtype" with
      | some expected_subtype =>
        (match expected_subtype with
          | .cnone => .ok (!(vHasKey ev "subtype"))
          | _ =>
            if vHasKey ev "subtype" then do
              let sv ← vitem ev "subtype"
              _matches expected_subtype (some sv)
            else .ok false)
      | none => .ok true
  else .ok false

/-- The event builder: dispatches on the constraint shape at build time;
a dict without a type key, or a non-string non-pattern non-dict value,
fails the registration. -/
def event (constraints : Constraint) (useAsync : Bool) : Except BuildError BuiltListenerMatcher :=
  match constraints with
  | .cstr _ => .ok (build_listener_matcher (asM (event_type_func constraints)) useAsync)
  | .cpat _ => .ok (build_listener_matcher (asM (event_type_func constraints)) useAsync)
  | .cdict d =>
    if (dlookup d "type").isSome then
      .ok (build_listener_matcher (asM (event_dict_func d)) useAsync)
    else .error (.invalidShape "event" constraints)
  | .cnone => .error .typeError
  | .cother => .error .typeError

/-- The predicate closed over by workflow_step_execute: an event of type
workflow_step_execute carrying a workflow_step field, whose callback_id
matches. -/
def workflow_step_execute_func (callback_id : Constraint) (body : Body) : Except PyError Bool :=
  if is_event body then do
    let ev ← ditem body "event"
    let et ← vitem ev "type"
    let tm ← _matches (.cstr "workflow_step_execute") (some et)
    if !tm then .ok false
    else if vHasKey ev "workflow_step" then do
      let cb ← vitem ev "callback_id"
      _matches callback_id (some cb)
    else .ok false
  else .ok false

/-- The workflow_step_execute builder. -/
def workflow_step_execute (callback_id : Constraint) (useAsync : Bool) : BuiltListenerMatcher :=
  build_listener_matcher (asM (workflow_step_execute_func callback_id)) useAsync

/-- The predicate closed over by the command builder. -/
def command_func (cmd : Constraint) (body : Body) : Except PyError Bool :=
  if is_slash_command body then do
    let c ← ditem body "command"
    _matches cmd (some c)
  else .ok false

/-- The command builder. -/
def command (cmd : Constraint) (useAsync : Bool) : BuiltListenerMatcher :=
  build_listener_matcher (asM (command_func cmd)) useAsync

/-- The predicate closed over by the shortcut builder for a string or
pattern constraint: any shortcut kind whose callback_id matches. -/
def shortcut_str_func (callback_id : Constraint) (body : Body) : Except PyError Bool :=
  if is_shortcut body then do
    let cb ← ditem body "callback_id"
    _matches callback_id (some cb)
  else .ok false

/-- The predicate closed over by global_shortcut. -/
def global_shortcut_func (callback_id : Constraint) (body : Body) : Except PyError Bool :=
  if is_global_shortcut body then do
    let cb ← ditem body "callback_id"
    _matches callback_id (some cb)
  else .ok false

/-- The global_shortcut builder. -/
def global_shortcut (callback_id : Constraint) (useAsync : Bool) : BuiltListenerMatcher :=
  build_listener_matcher (asM (global_shortcut_func callback_id)) useAsync

/-- The predicate closed over by message_shortcut. -/
def message_shortcut_func (callback_id : Constraint) (body : Body) : Except PyError Bool :=
  if is_message_shortcut body then do
    let cb ← ditem body "callback_id"
    _matches callback_id (some cb)
  else .ok false

/-- The message_shortcut builder. -/
def message_shortcut (callback_id : Constraint) (useAsync : Bool) : BuiltListenerMatcher :=
  build_listener_matcher (asM (message_shortcut_func callback_id)) useAsync

/-- The shortcut builder: a dict constraint must carry a type key and a
callback_id key, with the type selecting the global or the message
shortcut matcher; anything else fails the registration. -/
def shortcut (constraints : Constraint) (useAsync : Bool) : Except BuildError BuiltListenerMatcher :=
  match constraints with
  | .cstr _ => .ok (build_listener_matcher (asM (shortcut_str_func constraints)) useAsync)
  | .cpat _ => .ok (build_listener_matcher (asM (shortcut_str_func constraints)) useAsync)
  | .cdict d =>
    (match dlookup d "type", dlookup d "callback_id" with
      | some (.cstr "shortcut"), some cb => .ok (global_shortcut cb useAsync)
      | some (.cstr "message_action"), some cb => .ok (message_shortcut cb useAsync)
      | _, _ => .error (.invalidShape "shortcut" constraints))
  | .cnone => .error .typeError
  | .cother => .error .typeError

/-- The block-action check of builtins.py: requires the payload classify
as block_actions, extracts the singular action entry; a string or
pattern constraint must match the action_id; a dict constraint must
match the action_id and, when it supplies a block_id, the block_id; any
other constraint falls off the end of the Python function, yielding
None. -/
def _block_action (constraints : Constraint) (body : Body) : Except PyError (Option Bool) :=
  if !(is_block_actions body) then .ok (some false)
  else do
    let act ← to_action body
    match constraints with
    | .cstr _ => do
      let aid ← vitem act "action_id"
      let m ← _matches constraints (some aid)
      .ok (some m)
    | .cpat _ => do
      let aid ← vitem act "action_id"
      let m ← _matches constraints (some aid)
      .ok (some m)
    | .cdict d => do
      let bm ←
        (match dlookup d "block_id" with
          | none => Except.ok true
          | some .cnone => Except.ok true
          | some bc => do
            let bv ← vget act "block_id"
            _matches bc bv)
      let ca ← citem d "action_id"
      let av ← vitem act "action_id"
      let am ← _matches ca (some av)
      .ok (some (bm && am))
    | .cnone => .ok none
    | .cother => .ok none

/-- The block_action builder: its predicate returns the block-action
check's result unchanged. -/
def block_action (constraints : Constraint) (useAsync : Bool) : BuiltListenerMatcher :=
  build_listener_matcher (fun body => _block_action constraints body) useAsync

/-- The attachment-action check: an interactive_message payload whose
callback_id matches. -/
def _attachment_action (callback_id : Constraint) (body : Body) : Except PyError Bool :=
  if is_attachment_action body then do
    let cb ← ditem body "callback_id"
    _matches callback_id (some cb)
  else .ok false

/-- The attachment_action builder. -/
def attachment_action (callback_id : Constraint) (useAsync : Bool) : BuiltListenerMatcher :=
  build_listener_matcher (asM (_attachment_action callback_id)) useAsync

/-- The dialog-submission check. -/
def _dialog_submission (callback_id : Constraint) (body : Body) : Except PyError Bool :=
  if is_dialog_submission body then do
    let cb ← ditem body "callback_id"
    _matches callback_id (some cb)
  else .ok false

/-- The dialog_submission builder. -/
def dialog_submission (callback_id : Constraint) (useAsync : Bool) : BuiltListenerMatcher :=
  build_listener_matcher (asM (_dialog_submission callback_id)) useAsync

/-- The dialog-cancellation check. -/
def _dialog_cancellation (callback_id : Constraint) (body : Body) : Except PyError Bool :=
  if is_dialog_cancellation body then do
    let cb ← ditem body "callback_id"
    _matches callback_id (some cb)
  else .ok false

/-- The dialog_cancellation builder. -/
def dialog_cancellation (callback_id : Constraint) (useAsync : Bool) : BuiltListenerMatcher :=
  build_listener_matcher (asM (_dialog_cancellation callback_id)) useAsync

/-- The workflow-step-edit check. -/
def _workflow_step_edit (callback_id : Constraint) (body : Body) : Except PyError Bool :=
  if is_workflow_step_edit body then do
    let cb ← ditem body "callback_id"
    _matches callback_id (some cb)
  else .ok false

/-- The workflow_step_edit builder. -/
def workflow_step_edit (callback_id : Constraint) (useAsync : Bool) : BuiltListenerMatcher :=
  build_listener_matcher (asM (_workflow_step_edit callback_id)) useAsync

/-- The predicate closed over by the action builder for a string or
pattern constraint: the or-chain of the five underlying kind checks,
with Python's short-circuit semantics (a None from the block-action
check is falsy and falls through to the next check). -/
def action_str_func (constraints : Constraint) (body : Body) : Except PyError Bool := do
  let r1 ← _block_action constraints body
  if r1 = some true then .ok true
  else do
    let r2 ← _attachment_action constraints body
    if r2 then .ok true
    else do
      let r3 ← _dialog_submission constraints body
      if r3 then .ok true
      else do
        let r4 ← _dialog_cancellation constraints body
        if r4 then .ok true
        else _workflow_step_edit constraints body

/-- The action builder: a string or pattern constraint builds the
or-chain predicate; a dict constraint with a type key dispatches to the
matching refined builder or fails naming the unsupported type; a dict
constraint with only an action_id defaults to block_action; anything
else fails the registration. -/
def action (constraints : Constraint) (useAsync : Bool) : Except BuildError BuiltListenerMatcher :=
  match constraints with
  | .cstr _ => .ok (build_listener_matcher (asM (action_str_func constraints)) useAsync)
  | .cpat _ => .ok (build_listener_matcher (asM (action_str_func constraints)) useAsync)
  | .cdict d =>
    (match dlookup d "type" with
      | some action_type =>
        (match action_type with
          | .cstr "block_actions" => .ok (block_action constraints useAsync)
          | .cstr "interactive_message" =>
            (citemB d "callback_id").map (fun cb => attachment_action cb useAsync)
          | .cstr "dialog_submission" =>
            (citemB d "callback_id").map (fun cb => dialog_submission cb useAsync)
          | .cstr "dialog_cancellation" =>
            (citemB d "callback_id").map (fun cb => dialog_cancellation cb useAsync)
          | .cstr "workflow_step_edit" =>
            (citemB d "callback_id").map (fun cb => workflow_step_edit cb useAsync)
          | _ => .error (.unsupportedType action_type))
      | none =>
        if (dlookup d "action_id").isSome then .ok (block_action constraints useAsync)
        else .error (.invalidShape "action" constraints))
  | .cnone => .error .typeError
  | .cother => .error .typeError

/-- The predicate closed over by view_submission. -/
def view_submission_func (callback_id : Constraint) (body : Body) : Except PyError Bool :=
  if is_view_submission body then do
    let v ← ditem body "view"
    let cb ← vitem v "callback_id"
    _matches callback_id (some cb)
  else .ok false

/-- The view_submission builder. -/
def view_submission (callback_id : Constraint) (useAsync : Bool) : BuiltListenerMatcher :=
  build_listener_matcher (asM (view_submission_func callback_id)) useAsync

/-- The predicate closed over by view_closed. -/
def view_closed_func (callback_id : Constraint) (body : Body) : Except PyError Bool :=
  if is_view_closed body then do
    let v ← ditem body "view"
    let cb ← vitem v "callback_id"
    _matches callback_id (some cb)
  else .ok false

/-- The view_closed builder. -/
def view_closed (callback_id : Constraint) (useAsync : Bool) : BuiltListenerMatcher :=
  build_listener_matcher (asM (view_closed_func callback_id)) useAsync

/-- The predicate closed over by workflow_step_save. -/
def workflow_step_save_func (callback_id : Constraint) (body : Body) : Except PyError Bool :=
  if is_workflow_step_save body then do
    let v ← ditem body "view"
    let cb ← vitem v "callback_id"
    _matches callback_id (some cb)
  else .ok false

/-- The workflow_step_save builder. -/
def workflow_step_save (callback_id : Constraint) (useAsync : Bool) : BuiltListenerMatcher :=
  build_listener_matcher (asM (workflow_step_save_func callback_id)) useAsync

/-- The view builder: a string or pattern constraint defaults to
view_submission; a dict constraint dispatches on its type value;
anything else fails the registration. -/
def view (constraints : Constraint) (useAsync : Bool) : Except BuildError BuiltListenerMatcher :=
  match constraints with
  | .cstr _ => .ok (view_submission constraints useAsync)
  | .cpat _ => .ok (view_submission constraints useAsync)
  | .cdict d =>
    (match dlookup d "type" with
      | some (.cstr "view_submission") =>
        (citemB d "callback_id").map (fun cb => view_submission cb useAsync)
      | some (.cstr "view_closed") =>
        (citemB d "callback_id").map (fun cb => view_closed cb useAsync)
      | _ => .error (.invalidShape "view" constraints))
  | .cnone => .error .typeError
  | .cother => .error .typeError

/-- The block-suggestion check. -/
def _block_suggestion (action_id : Constraint) (body : Body) : Except PyError Bool :=
  if is_block_suggestion body then do
    let aid ← ditem body "action_id"
    _matches action_id (some aid)
  else .ok false

/-- The block_suggestion builder. -/
def block_suggestion (action_id : Constraint) (useAsync : Bool) : BuiltListenerMatcher :=
  build_listener_matcher (asM (_block_suggestion action_id)) useAsync

/-- The dialog-suggestion check. -/
def _dialog_suggestion (callback_id : Constraint) (body : Body) : Except PyError Bool :=
  if is_dialog_suggestion body then do
    let cb ← ditem body "callback_id"
    _matches callback_id (some cb)
  else .ok false

/-- The dialog_suggestion builder. -/
def dialog_suggestion (callback_id : Constraint) (useAsync : Bool) : BuiltListenerMatcher :=
  build_listener_matcher (asM (_dialog_suggestion callback_id)) useAsync

/-- The predicate closed over by the options builder for a string or
pattern constraint: block suggestion or dialog suggestion. -/
def options_str_func (constraints : Constraint) (body : Body) : Except PyError Bool := do
  let r1 ← _block_suggestion constraints body
  if r1 then .ok true
  else _dialog_suggestion constraints body

/-- The options builder: a dict constraint with an action_id key builds
the block_suggestion matcher (the action_id key is consulted first); a
dict with only a callback_id key builds the dialog_suggestion matcher;
a dict with neither fails the registration. -/
def options (constraints : Constraint) (useAsync : Bool) : Except BuildError BuiltListenerMatcher :=
  match constraints with
  | .cstr _ => .ok (build_listener_matcher (asM (options_str_func constraints)) useAsync)
  | .cpat _ => .ok (build_listener_matcher (asM (options_str_func constraints)) useAsync)
  | .cdict d =>
    (match dlookup d "action_id" with
      | some aid => .ok (block_suggestion aid useAsync)
      | none =>
        (match dlookup d "callback_id" with
          | some cb => .ok (dialog_suggestion cb useAsync)
          | none => .error (.invalidShape "options" constraints)))
  | .cnone => .error .typeError
  | .cother => .error .typeError

/-- One application of a matcher builder, used to quantify over every
matcher the module can build. -/
inductive BuilderApp where
  | bEvent (c : Constraint)
  | bWorkflowStepExec (c : Constraint)
  | bCommand (c : Constraint)
  | bShortcut (c : Constraint)
  | bGlobalShortcut (c : Constraint)
  | bMessageShortcut (c : Constraint)
  | bAction (c : Constraint)
  | bBlockAction (c : Constraint)
  | bAttachmentAction (c : Constraint)
  | bDialogSubmission (c : Constraint)
  | bDialogCancellation (c : Constraint)
  | bWorkflowStepEdit (c : Constraint)
  | bView (c : Constraint)
  | bViewSubmission (c : Constraint)
  | bViewClosed (c : Constraint)
  | bWorkflowStepSave (c : Constraint)
  | bOptions (c : Constraint)
  | bBlockSuggestion (c : Constraint)
  | bDialogSuggestion (c : Constraint)

/-- Runs the named builder on its constraint. -/
def applyBuilder : BuilderApp → Bool → Except BuildError BuiltListenerMatcher
  | .bEvent c, a => event c a
  | .bWorkflowStepExec c, a => .ok (workflow_step_execute c a)
  | .bCommand c, a => .ok (command c a)
  | .bShortcut c, a => shortcut c a
  | .bGlobalShortcut c, a => .ok (global_shortcut c a)
  | .bMessageShortcut c, a => .ok (message_shortcut c a)
  | .bAction c, a => action c a
  | .bBlockAction c, a => .ok (block_action c a)
  | .bAttachmentAction c, a => .ok (attachment_action c a)
  | .bDialogSubmission c, a => .ok (dialog_submission c a)
  | .bDialogCancellation c, a => .ok (dialog_cancellation c a)
  | .bWorkflowStepEdit c, a => .ok (workflow_step_edit c a)
  | .bView c, a => view c a
  | .bViewSubmission c, a => .ok (view_submission c a)
  | .bViewClosed c, a => .ok (view_closed c a)
  | .bWorkflowStepSave c, a => .ok (workflow_step_save c a)
  | .bOptions c, a => options c a
  | .bBlockSuggestion c, a => .ok (block_suggestion c a)
  | .bDialogSuggestion c, a => .ok (dialog_suggestion c a)

/-- Two sequential evaluations of a built matcher on the same body,
together with the body as it stands afterwards. The embedded source
performs only lookups on the body, so the evaluation is a pure function
of it. -/
def runTwice (m : BuiltListenerMatcher) (b : Body) : MRes × MRes × Body :=
  (evalBuilt m b, evalBuilt m b, b)

/-- The type discriminators the action builder dispatches on. -/
def actionTypeSupported : Constraint → Bool
  | .cstr "block_actions" => true
  | .cstr "interactive_message" => true
  | .cstr "dialog_submission" => true
  | .cstr "dialog_cancellation" => true
  | .cstr "workflow_step_edit" => true
  | _ => false

/-- A constraint dict the shortcut builder recognizes: a type entry that
is the string shortcut or message_action, next to a callback_id entry. -/
def shortcutShapeRecognized (d : List (String × Constraint)) : Bool :=
  match dlookup d "type", dlookup d "callback_id" with
  | some (.cstr "shortcut"), some _ => true
  | some (.cstr "message_action"), some _ => true
  | _, _ => false

/-- A constraint dict the view builder recognizes: a type entry that is
the string view_submission or view_closed. -/
def viewShapeRecognized (d : List (String × Constraint)) : Bool :=
  match dlookup d "type" with
  | some (.cstr "view_submission") => true
  | some (.cstr "view_closed") => true
  | _ => false

/-- The isinstance test for a string or compiled pattern that the
builders dispatch on first. -/
def isStrOrPattern : Constraint → Bool
  | .cstr _ => true
  | .cpat _ => true
  | _ => false

/-- What a string constraint yields against an optional payload value:
false on an absent value, string equality otherwise. -/
def strMatchOpt (s : String) : Option Value → Bool
  | some v => valueEqStr v s
  | none => false

-- ---------------------------------------------------------------------
-- Theorems
-- ---------------------------------------------------------------------

/-- A body carries at most one top-level type discriminator. -/
theorem _is_expected_type_unique (body : Body) (a b : String)
    (ha : _is_expected_type body a = true) (hb : _is_expected_type body b = true) :
    a = b := by
  unfold _is_expected_type at ha hb
  cases h : dlookup body "type" with
  | none => rw [h] at ha; exact absurd ha (by simp)
  | some v =>
    rw [h] at ha hb
    cases v with
    | vstr s =>
      simp only [valueEqStr, beq_iff_eq] at ha hb
      rw [← ha, ← hb]
    | vdict d => exact absurd ha (by simp [valueEqStr])
    | vlist l => exact absurd ha (by simp [valueEqStr])
    | vnull => exact absurd ha (by simp [valueEqStr])
    | vother => exact absurd ha (by simp [valueEqStr])

/-- Distinct kind names cannot both match a body's type discriminator. -/
theorem classifier_type_mismatch (body : Body) (a b : String) (hne : a ≠ b)
    (ha : _is_expected_type body a = true) : _is_expected_type body b = false := by
  by_contra h
  rw [Bool.not_eq_false] at h
  exact hne (_is_expected_type_unique body a b ha h)

/-- The block-action check returns false outright on a payload whose
type discriminator is not block_actions. -/
theorem _block_action_inactive (c : Constraint) (body : Body)
    (h : _is_expected_type body "block_actions" = false) :
    _block_action c body = .ok (some false) := by
  have hb : is_block_actions body = false := by simp [is_block_actions, h]
  simp [_block_action, hb]

/-- The attachment-action check returns false outright on a payload
whose type discriminator is not interactive_message. -/
theorem _attachment_action_inactive (c : Constraint) (body : Body)
    (h : _is_expected_type body "interactive_message" = false) :
    _attachment_action c body = .ok false := by
  have hb : is_attachment_action body = false := by simp [is_attachment_action, h]
  simp [_attachment_action, hb]

/-- The dialog-submission check returns false outright on a payload
whose type discriminator is not dialog_submission. -/
theorem _dialog_submission_inactive (c : Constraint) (body : Body)
    (h : _is_expected_type body "dialog_submission" = false) :
    _dialog_submission c body = .ok false := by
  have hb : is_dialog_submission body = false := by simp [is_dialog_submission, h]
  simp [_dialog_submission, hb]

/-- The dialog-cancellation check returns false outright on a payload
whose type discriminator is not dialog_cancellation. -/
theorem _dialog_cancellation_inactive (c : Constraint) (body : Body)
    (h : _is_expected_type body "dialog_cancellation" = false) :
    _dialog_cancellation c body = .ok false := by
  have hb : is_dialog_cancellation body = false := by simp [is_dialog_cancellation, h]
  simp [_dialog_cancellation, hb]

/-- The workflow-step-edit check returns false outright on a payload
whose type discriminator is not workflow_step_edit. -/
theorem _workflow_step_edit_inactive (c : Constraint) (body : Body)
    (h : _is_expected_type body "workflow_step_edit" = false) :
    _workflow_step_edit c body = .ok false := by
  have hb : is_workflow_step_edit body = false := by simp [is_workflow_step_edit, h]
  simp [_workflow_step_edit, hb]

/-- C1: the pattern-match primitive returns false when the constraint or
the input is absent; a string constraint matches exactly on equality; a
compiled pattern matches iff it is found at some start position within
the input, an unanchored search rather than a full match. -/
theorem matches_primitive_spec :
    (∀ input, _matches .cnone input = .ok false) ∧
    (∀ c, _matches c none = .ok false) ∧
    (∀ c, _matches c (some .vnull) = .ok false) ∧
    (∀ lit s, (_matches (.cstr lit) (some (.vstr s)) = .ok true ↔ s = lit)) ∧
    (∀ p s, (_matches (.cpat p) (some (.vstr s)) = .ok true ↔
      ∃ i, i ≤ s.length ∧ p.matchAt s i = true)) := by
  refine ⟨?_, ?_, ?_, ?_, ?_⟩
  · intro input
    cases input with
    | none => rfl
    | some v => cases v <;> rfl
  · intro c; cases c <;> rfl
  · intro c; cases c <;> rfl
  · intro lit s
    simp [_matches, valueEqStr]
  · intro p s
    simp [_matches, Pattern.search, List.any_eq_true, List.mem_range, Nat.lt_succ_iff]

/-- C1 witness: a literal matches itself, and a pattern that matches
only at position 2 is still found by the unanchored search. -/
theorem matches_primitive_spec_witness :
    _matches (.cstr "go") (some (.vstr "go")) = .ok true ∧
    _matches (.cpat ⟨fun _ i => decide (i = 2)⟩) (some (.vstr "abcd")) = .ok true :=
  ⟨(matches_primitive_spec.2.2.2.1 "go" "go").mpr rfl,
   (matches_primitive_spec.2.2.2.2 ⟨fun _ i => decide (i = 2)⟩ "abcd").mpr
     ⟨2, by decide, by decide⟩⟩

/-- C2 (the code contradicts it): the predicate built by
workflow_step_execute reads the callback_id of the event envelope by
direct indexing, so a workflow_step_execute event that lacks a
callback_id raises KeyError instead of yielding false; likewise, the
event matcher for a string constraint raises KeyError on an event
envelope that lacks a type field. -/
theorem workflow_step_execute_raises_on_missing_callback_id :
    evalBuilt (workflow_step_execute (.cstr "x") false)
        [("type", .vstr "event_callback"),
         ("event", .vdict [("type", .vstr "workflow_step_execute"),
                           ("workflow_step", .vdict [])])]
      = .error (.keyError "callback_id") ∧
    event_type_func (.cstr "message")
        [("type", .vstr "event_callback"), ("event", .vdict [])]
      = .error (.keyError "type") :=
  ⟨rfl, rfl⟩

/-- C8: every built matcher predicate is referentially transparent; the
embedded source performs only lookups on the payload body, so two
evaluations on the same body return the same result and the body is
unchanged afterwards. -/
theorem built_matchers_referentially_transparent :
    ∀ (ba : BuilderApp) (useAsync : Bool) (m : BuiltListenerMatcher) (b : Body),
      applyBuilder ba useAsync = .ok m →
      (runTwice m b).1 = (runTwice m b).2.1 ∧ (runTwice m b).2.2 = b := by
  intro ba a m b _
  exact ⟨rfl, rfl⟩

/-- C8 witness: the command matcher, built and evaluated twice on the
empty body. -/
theorem built_matchers_referentially_transparent_witness :
    applyBuilder (.bCommand (.cstr "/hi")) false = .ok (command (.cstr "/hi") false) ∧
    ((runTwice (command (.cstr "/hi") false) []).1
        = (runTwice (command (.cstr "/hi") false) []).2.1 ∧
      (runTwice (command (.cstr "/hi") false) []).2.2 = []) :=
  ⟨rfl, built_matchers_referentially_transparent (.bCommand (.cstr "/hi")) false
      (command (.cstr "/hi") false) [] rfl⟩

/-- C9: for every predicate and body, the asynchronous matcher built by
build_listener_matcher, once awaited, yields exactly what the
synchronous one returns. -/
theorem sync_async_matcher_agree (func : MatcherFun) (body : Body) :
    evalBuilt (build_listener_matcher func true) body
      = evalBuilt (build_listener_matcher func false) body := rfl

/-- C6: each builder rejects a constraint dict of unrecognized shape at
build time with a BoltError naming the category and the offending
value, never building a silently-false predicate; an unsupported type
discriminator in the action builder is rejected naming that type. -/
theorem builders_reject_unrecognized_shapes :
    (∀ (d : List (String × Constraint)) (a : Bool), dlookup d "type" = none →
      event (.cdict d) a = .error (.invalidShape "event" (.cdict d))) ∧
    (∀ (d : List (String × Constraint)) (a : Bool), shortcutShapeRecognized d = false →
      shortcut (.cdict d) a = .error (.invalidShape "shortcut" (.cdict d))) ∧
    (∀ (d : List (String × Constraint)) (a : Bool),
      dlookup d "type" = none → dlookup d "action_id" = none →
      action (.cdict d) a = .error (.invalidShape "action" (.cdict d))) ∧
    (∀ (d : List (String × Constraint)) (t : Constraint) (a : Bool),
      dlookup d "type" = some t → actionTypeSupported t = false →
      action (.cdict d) a = .error (.unsupportedType t)) ∧
    (∀ (d : List (String × Constraint)) (a : Bool), viewShapeRecognized d = false →
      view (.cdict d) a = .error (.invalidShape "view" (.cdict d))) ∧
    (∀ (d : List (String × Constraint)) (a : Bool),
      dlookup d "action_id" = none → dlookup d "callback_id" = none →
      options (.cdict d) a = .error (.invalidShape "options" (.cdict d))) := by
  refine ⟨?_, ?_, ?_, ?_, ?_, ?_⟩
  · intro d a h
    simp [event, h]
  · intro d a h
    unfold shortcutShapeRecognized at h
    simp only [shortcut]
    split
    · rename_i heqt heqc
      rw [heqt, heqc] at h
      simp at h
    · rename_i heqt heqc
      rw [heqt, heqc] at h
      simp at h
    · rfl
  · intro d a h1 h2
    simp [action, h1, h2]
  · intro d t a ht hsup
    simp only [action, ht]
    split
    · simp [actionTypeSupported] at hsup
    · simp [actionTypeSupported] at hsup
    · simp [actionTypeSupported] at hsup
    · simp [actionTypeSupported] at hsup
    · simp [actionTypeSupported] at hsup
    · rfl
  · intro d a h
    unfold viewShapeRecognized at h
    simp only [view]
    split
    · rename_i heq; rw [heq] at h; simp at h
    · rename_i heq; rw [heq] at h; simp at h
    · rfl
  · intro d a h1 h2
    simp [options, h1, h2]

/-- C6 witness: concrete unrecognized constraint dicts for each
category, and an unsupported type discriminator for action. -/
theorem builders_reject_unrecognized_shapes_witness :
    event (.cdict [("callback_id", .cstr "x")]) false
      = .error (.invalidShape "event" (.cdict [("callback_id", .cstr "x")])) ∧
    shortcut (.cdict [("callback_id", .cstr "x")]) false
      = .error (.invalidShape "shortcut" (.cdict [("callback_id", .cstr "x")])) ∧
    action (.cdict [("subtype", .cstr "x")]) false
      = .error (.invalidShape "action" (.cdict [("subtype", .cstr "x")])) ∧
    action (.cdict [("type", .cstr "unknown_type")]) false
      = .error (.unsupportedType (.cstr "unknown_type")) ∧
    view (.cdict [("action_id", .cstr "x")]) false
      = .error (.invalidShape "view" (.cdict [("action_id", .cstr "x")])) ∧
    options (.cdict [("type", .cstr "x")]) false
      = .error (.invalidShape "options" (.cdict [("type", .cstr "x")])) :=
  ⟨builders_reject_unrecognized_shapes.1 _ false rfl,
   builders_reject_unrecognized_shapes.2.1 _ false rfl,
   builders_reject_unrecognized_shapes.2.2.1 _ false rfl rfl,
   builders_reject_unrecognized_shapes.2.2.2.1 _ _ false rfl rfl,
   builders_reject_unrecognized_shapes.2.2.2.2.1 _ false rfl,
   builders_reject_unrecognized_shapes.2.2.2.2.2 _ false rfl rfl⟩

/-- C7 counterexample: a None constraint is neither a string nor a
compiled pattern nor a mapping, yet the pattern-match primitive returns
an ordinary false for it, and the block-action evaluation path returns
a falsy Python None for a constraint of unrecognized type; neither
outcome is a BoltError. -/
theorem matches_none_constraint_counterexample :
    _matches .cnone (some (.vstr "x")) = .ok false ∧
    _block_action .cother
        [("type", .vstr "block_actions"), ("actions", .vlist [.vdict []])]
      = .ok none :=
  ⟨rfl, rfl⟩

/-- C7 as amended: a constraint that is neither a string, a pattern, nor
None fails with a BoltError naming it when it reaches the pattern-match
primitive with a present input; a None constraint instead yields an
ordinary false there; and on the block-action evaluation path a
constraint of unrecognized type yields a falsy Python None (ordinary
false when the payload is not a block-actions one), never a BoltError. -/
theorem matches_rejects_invalid_constraint_types :
    (∀ (v : Value), v ≠ .vnull → _matches .cother (some v) = .error (.boltError .cother)) ∧
    (∀ (d : List (String × Constraint)) (v : Value), v ≠ .vnull →
      _matches (.cdict d) (some v) = .error (.boltError (.cdict d))) ∧
    (∀ input, _matches .cnone input = .ok false) ∧
    (∀ body, is_block_actions body = false →
      _block_action .cother body = .ok (some false) ∧
      _block_action .cnone body = .ok (some false)) ∧
    (∀ body act, is_block_actions body = true → to_action body = .ok act →
      _block_action .cother body = .ok none ∧
      _block_action .cnone body = .ok none) := by
  refine ⟨?_, ?_, ?_, ?_, ?_⟩
  · intro v hv
    cases v with
    | vnull => exact absurd rfl hv
    | vstr s => rfl
    | vdict d => rfl
    | vlist l => rfl
    | vother => rfl
  · intro d v hv
    cases v with
    | vnull => exact absurd rfl hv
    | vstr s => rfl
    | vdict d2 => rfl
    | vlist l => rfl
    | vother => rfl
  · intro input
    cases input with
    | none => rfl
    | some v => cases v <;> rfl
  · intro body h
    constructor <;> simp [_block_action, h]
  · intro body act h hact
    constructor <;> simp [_block_action, h, hact, Bind.bind, Except.bind]

/-- C7 witness: the amended behavior at concrete inputs. -/
theorem matches_rejects_invalid_constraint_types_witness :
    _matches .cother (some (.vstr "x")) = .error (.boltError .cother) ∧
    _block_action .cother [] = .ok (some false) :=
  ⟨matches_rejects_invalid_constraint_types.1 (.vstr "x") (by simp),
   (matches_rejects_invalid_constraint_types.2.2.2.1 [] rfl).1⟩

/-- The pattern-match primitive never raises for a string constraint:
it computes string equality, with false on an absent input. -/
theorem _matches_cstr_total (s : String) (ov : Option Value) :
    _matches (.cstr s) ov = .ok (strMatchOpt s ov) := by
  cases ov with
  | none => rfl
  | some v => cases v <;> rfl

/-- C5: the block_action matcher with action_id a and block_id b
requires the payload to classify as block_actions and the singular
action's action_id to match; it matches exactly when the action's
block_id is b, failing on a different or missing block_id; without a
block_id constraint the action_id alone decides. -/
theorem block_action_constraint_spec :
    (∀ body : Body, is_block_actions body = false →
      evalBuilt (block_action
          (.cdict [("action_id", .cstr "a"), ("block_id", .cstr "b")]) false) body
        = .ok (some false) ∧
      evalBuilt (block_action (.cdict [("action_id", .cstr "a")]) false) body
        = .ok (some false)) ∧
    (∀ (body : Body) (act : List (String × Value)) (rest : List Value) (aid : String),
      is_block_actions body = true →
      dlookup body "actions" = some (.vlist (.vdict act :: rest)) →
      dlookup act "action_id" = some (.vstr aid) →
      ((dlookup act "block_id" = some (.vstr "b") → aid = "a" →
        evalBuilt (block_action
            (.cdict [("action_id", .cstr "a"), ("block_id", .cstr "b")]) false) body
          = .ok (some true)) ∧
       (dlookup act "block_id" ≠ some (.vstr "b") →
        evalBuilt (block_action
            (.cdict [("action_id", .cstr "a"), ("block_id", .cstr "b")]) false) body
          = .ok (some false)) ∧
       (aid ≠ "a" →
        evalBuilt (block_action
            (.cdict [("action_id", .cstr "a"), ("block_id", .cstr "b")]) false) body
          = .ok (some false)) ∧
       (evalBuilt (block_action (.cdict [("action_id", .cstr "a")]) false) body
          = .ok (some (aid == "a"))))) := by
  have hC1 : dlookup [("action_id", Constraint.cstr "a"), ("block_id", Constraint.cstr "b")]
      "block_id" = some (.cstr "b") := rfl
  have hC2 : citem [("action_id", Constraint.cstr "a"), ("block_id", Constraint.cstr "b")]
      "action_id" = .ok (.cstr "a") := rfl
  have hC3 : dlookup [("action_id", Constraint.cstr "a")] "block_id"
      = (none : Option Constraint) := rfl
  have hC4 : citem [("action_id", Constraint.cstr "a")] "action_id"
      = .ok (.cstr "a") := rfl
  constructor
  · intro body h
    constructor <;>
      simp [evalBuilt, block_action, build_listener_matcher, _block_action, h]
  · intro body act rest aid hba hacts haid
    refine ⟨?_, ?_, ?_, ?_⟩
    · intro hbv ha
      subst ha
      simp [evalBuilt, block_action, build_listener_matcher, _block_action, hba,
        to_action, ditem, hacts, hC1, hC2, vget, vitem, haid, _matches_cstr_total,
        strMatchOpt, valueEqStr, hbv, Bind.bind, Except.bind]
    · intro hbv
      have hXfalse : strMatchOpt "b" (dlookup act "block_id") = false := by
        cases hb : dlookup act "block_id" with
        | none => rfl
        | some v =>
          cases v with
          | vstr s =>
            have hs : ¬ s = "b" := by
              intro hss
              exact hbv (by rw [hb, hss])
            simp [strMatchOpt, valueEqStr, hs]
          | vdict d2 => rfl
          | vlist l => rfl
          | vnull => rfl
          | vother => rfl
      simp [evalBuilt, block_action, build_listener_matcher, _block_action, hba,
        to_action, ditem, hacts, hC1, hC2, vget, vitem, haid, _matches_cstr_total,
        hXfalse, Bind.bind, Except.bind]
    · intro hna
      have han : (aid == "a") = false := by simp [hna]
      simp [evalBuilt, block_action, build_listener_matcher, _block_action, hba,
        to_action, ditem, hacts, hC1, hC2, vget, vitem, haid, _matches_cstr_total,
        strMatchOpt, valueEqStr, han, Bind.bind, Except.bind]
    · simp [evalBuilt, block_action, build_listener_matcher, _block_action, hba,
        to_action, ditem, hacts, hC3, hC4, vitem, haid, _matches_cstr_total,
        strMatchOpt, valueEqStr, Bind.bind, Except.bind]

/-- C5 witness: a block-actions payload whose single action has
action_id a and block_id b matches the constraint with both keys. -/
theorem block_action_constraint_spec_witness :
    evalBuilt (block_action
        (.cdict [("action_id", .cstr "a"), ("block_id", .cstr "b")]) false)
        [("type", .vstr "block_actions"),
         ("actions", .vlist [.vdict [("action_id", .vstr "a"), ("block_id", .vstr "b")]])]
      = .ok (some true) :=
  (block_action_constraint_spec.2
    [("type", .vstr "block_actions"),
     ("actions", .vlist [.vdict [("action_id", .vstr "a"), ("block_id", .vstr "b")]])]
    [("action_id", .vstr "a"), ("block_id", .vstr "b")] [] "a"
    rfl rfl rfl).1 rfl rfl

/-- C4: for a string or compiled-pattern constraint, the generic action
builder builds the or-chain predicate, and that predicate returns true
iff at least one of the five underlying checks succeeds: block action
by action_id, attachment action, dialog submission, dialog
cancellation, or workflow-step edit by callback_id. -/
theorem action_literal_or_chain (c : Constraint) (hc : isStrOrPattern c = true) :
    (∀ a : Bool, action c a
        = .ok (build_listener_matcher (asM (action_str_func c)) a)) ∧
    (∀ body : Body, (action_str_func c body = .ok true ↔
      (_block_action c body = .ok (some true) ∨
       _attachment_action c body = .ok true ∨
       _dialog_submission c body = .ok true ∨
       _dialog_cancellation c body = .ok true ∨
       _workflow_step_edit c body = .ok true))) := by
  constructor
  · intro a
    cases c with
    | cstr s => rfl
    | cpat p => rfl
    | cdict d => simp [isStrOrPattern] at hc
    | cnone => simp [isStrOrPattern] at hc
    | cother => simp [isStrOrPattern] at hc
  · intro body
    unfold action_str_func
    cases hr1 : _block_action c body with
    | error e =>
      have hty1 : _is_expected_type body "block_actions" = true := by
        by_contra hh
        rw [Bool.not_eq_true] at hh
        simp [_block_action_inactive c body hh] at hr1
      have h2 := _attachment_action_inactive c body
        (classifier_type_mismatch body _ _ (by decide) hty1)
      have h3 := _dialog_submission_inactive c body
        (classifier_type_mismatch body _ _ (by decide) hty1)
      have h4 := _dialog_cancellation_inactive c body
        (classifier_type_mismatch body _ _ (by decide) hty1)
      have h5 := _workflow_step_edit_inactive c body
        (classifier_type_mismatch body _ _ (by decide) hty1)
      simp [hr1, h2, h3, h4, h5, Bind.bind, Except.bind]
    | ok r1 =>
      by_cases ht1 : r1 = some true
      · subst ht1
        simp [hr1, Bind.bind, Except.bind]
      · cases hr2 : _attachment_action c body with
        | error e2 =>
          have hty2 : _is_expected_type body "interactive_message" = true := by
            by_contra hh
            rw [Bool.not_eq_true] at hh
            simp [_attachment_action_inactive c body hh] at hr2
          have h3 := _dialog_submission_inactive c body
            (classifier_type_mismatch body _ _ (by decide) hty2)
          have h4 := _dialog_cancellation_inactive c body
            (classifier_type_mismatch body _ _ (by decide) hty2)
          have h5 := _workflow_step_edit_inactive c body
            (classifier_type_mismatch body _ _ (by decide) hty2)
          simp [hr1, ht1, hr2, h3, h4, h5, Bind.bind, Except.bind]
        | ok b2 =>
          cases b2 with
          | true => simp [hr1, ht1, hr2, Bind.bind, Except.bind]
          | false =>
            cases hr3 : _dialog_submission c body with
            | error e3 =>
              have hty3 : _is_expected_type body "dialog_submission" = true := by
                by_contra hh
                rw [Bool.not_eq_true] at hh
                simp [_dialog_submission_inactive c body hh] at hr3
              have h4 := _dialog_cancellation_inactive c body
                (classifier_type_mismatch body _ _ (by decide) hty3)
              have h5 := _workflow_step_edit_inactive c body
                (classifier_type_mismatch body _ _ (by decide) hty3)
              simp [hr1, ht1, hr2, hr3, h4, h5, Bind.bind, Except.bind]
            | ok b3 =>
              cases b3 with
              | true => simp [hr1, ht1, hr2, hr3, Bind.bind, Except.bind]
              | false =>
                cases hr4 : _dialog_cancellation c body with
                | error e4 =>
                  have hty4 : _is_expected_type body "dialog_cancellation" = true := by
                    by_contra hh
                    rw [Bool.not_eq_true] at hh
                    simp [_dialog_cancellation_inactive c body hh] at hr4
                  have h5 := _workflow_step_edit_inactive c body
                    (classifier_type_mismatch body _ _ (by decide) hty4)
                  simp [hr1, ht1, hr2, hr3, hr4, h5, Bind.bind, Except.bind]
                | ok b4 =>
                  cases b4 with
                  | true => simp [hr1, ht1, hr2, hr3, hr4, Bind.bind, Except.bind]
                  | false => simp [hr1, ht1, hr2, hr3, hr4, Bind.bind, Except.bind]

/-- C4 witness: the literal action constraint a, built by the action
builder, matches a dialog-submission payload with callback_id a through
the third check of the or-chain. -/
theorem action_literal_or_chain_witness :
    action (.cstr "a") false
      = .ok (build_listener_matcher (asM (action_str_func (.cstr "a"))) false) ∧
    action_str_func (.cstr "a")
        [("type", .vstr "dialog_submission"), ("callback_id", .vstr "a")] = .ok true :=
  ⟨(action_literal_or_chain (.cstr "a") rfl).1 false,
   ((action_literal_or_chain (.cstr "a") rfl).2
      [("type", .vstr "dialog_submission"), ("callback_id", .vstr "a")]).mpr
     (Or.inr (Or.inr (Or.inl rfl)))⟩

/-- C10: an options constraint dict carrying both an action_id and a
callback_id builds exactly the block_suggestion matcher for the
action_id, ignoring the callback_id entry, and no dialog-suggestion
payload can match that matcher. -/
theorem options_action_id_takes_precedence :
    (∀ (d : List (String × Constraint)) (ca cb : Constraint) (a : Bool),
      dlookup d "action_id" = some ca → dlookup d "callback_id" = some cb →
      options (.cdict d) a = .ok (block_suggestion ca a)) ∧
    (∀ (ca : Constraint) (a : Bool) (body : Body), is_dialog_suggestion body = true →
      evalBuilt (block_suggestion ca a) body = .ok (some false)) := by
  constructor
  · intro d ca cb a h1 _
    simp [options, h1]
  · intro ca a body hds
    have hbs : is_block_suggestion body = false := by
      by_contra hh
      rw [Bool.not_eq_false] at hh
      unfold is_block_suggestion at hh
      have hds' := hds
      unfold is_dialog_suggestion at hds'
      rw [Bool.and_eq_true] at hh hds'
      have := _is_expected_type_unique body _ _ hh.1 hds'.1
      simp at this
    cases a <;>
      simp [block_suggestion, build_listener_matcher, evalBuilt, async_fun, asM,
        _block_suggestion, hbs, Except.map]

/-- C3: the event builder with constraint type message and subtype None
matches exactly the message events carrying no subtype key; with
subtype message_deleted it matches exactly the message events whose
subtype equals message_deleted. -/
theorem event_subtype_constraint_spec :
    (∀ a : Bool,
      event (.cdict [("type", .cstr "message"), ("subtype", .cnone)]) a
        = .ok (build_listener_matcher
            (asM (event_dict_func [("type", .cstr "message"), ("subtype", .cnone)])) a) ∧
      event (.cdict [("type", .cstr "message"), ("subtype", .cstr "message_deleted")]) a
        = .ok (build_listener_matcher
            (asM (event_dict_func
              [("type", .cstr "message"), ("subtype", .cstr "message_deleted")])) a)) ∧
    (∀ (body : Body) (ev : List (String × Value)),
      is_event body = true →
      dlookup body "event" = some (.vdict ev) →
      dlookup ev "type" = some (.vstr "message") →
      ((event_dict_func [("type", .cstr "message"), ("subtype", .cnone)] body = .ok true
          ↔ dlookup ev "subtype" = none) ∧
       (event_dict_func [("type", .cstr "message"), ("subtype", .cnone)] body = .ok false
          ↔ (dlookup ev "subtype").isSome = true) ∧
       (event_dict_func [("type", .cstr "message"),
            ("subtype", .cstr "message_deleted")] body = .ok true
          ↔ dlookup ev "subtype" = some (.vstr "message_deleted")) ∧
       (event_dict_func [("type", .cstr "message"),
            ("subtype", .cstr "message_deleted")] body = .ok false
          ↔ dlookup ev "subtype" ≠ some (.vstr "message_deleted")))) := by
  have hA1 : citem [("type", Constraint.cstr "message"), ("subtype", Constraint.cnone)]
      "type" = .ok (.cstr "message") := rfl
  have hA2 : dlookup [("type", Constraint.cstr "message"), ("subtype", Constraint.cnone)]
      "subtype" = some .cnone := rfl
  have hB1 : citem [("type", Constraint.cstr "message"),
      ("subtype", Constraint.cstr "message_deleted")] "type" = .ok (.cstr "message") := rfl
  have hB2 : dlookup [("type", Constraint.cstr "message"),
      ("subtype", Constraint.cstr "message_deleted")] "subtype"
      = some (.cstr "message_deleted") := rfl
  constructor
  · intro a
    exact ⟨rfl, rfl⟩
  · intro body ev he hev het
    cases hsub : dlookup ev "subtype" with
    | none =>
      refine ⟨?_, ?_, ?_, ?_⟩ <;>
        simp [event_dict_func, he, hev, het, hsub, hA1, hA2, hB1, hB2, ditem, vitem,
          _matches, valueEqStr, vHasKey, hasKey, Bind.bind, Except.bind]
    | some v =>
      refine ⟨?_, ?_, ?_, ?_⟩ <;>
        cases v <;>
        simp [event_dict_func, he, hev, het, hsub, hA1, hA2, hB1, hB2, ditem, vitem,
          _matches, valueEqStr, vHasKey, hasKey, Bind.bind, Except.bind]

/-- C3 witness: a message event with no subtype matches the
subtype-None constraint, and a message_deleted event matches the
subtype-message_deleted constraint. -/
theorem event_subtype_constraint_spec_witness :
    event_dict_func [("type", .cstr "message"), ("subtype", .cnone)]
        [("type", .vstr "event_callback"), ("event", .vdict [("type", .vstr "message")])]
      = .ok true ∧
    event_dict_func [("type", .cstr "message"), ("subtype", .cstr "message_deleted")]
        [("type", .vstr "event_callback"),
         ("event", .vdict [("type", .vstr "message"),
                           ("subtype", .vstr "message_deleted")])]
      = .ok true :=
  ⟨((event_subtype_constraint_spec.2
      [("type", .vstr "event_callback"), ("event", .vdict [("type", .vstr "message")])]
      [("type", .vstr "message")] rfl rfl rfl).1).mpr rfl,
   ((event_subtype_constraint_spec.2
      [("type", .vstr "event_callback"),
       ("event", .vdict [("type", .vstr "message"), ("subtype", .vstr "message_deleted")])]
      [("type", .vstr "message"), ("subtype", .vstr "message_deleted")]
      rfl rfl rfl).2.2.1).mpr rfl⟩

/-- C10 witness: a dict with both keys builds the block_suggestion
matcher, and a concrete dialog-suggestion payload does not match it. -/
theorem options_action_id_takes_precedence_witness :
    options (.cdict [("action_id", .cstr "a"), ("callback_id", .cstr "c")]) false
      = .ok (block_suggestion (.cstr "a") false) ∧
    evalBuilt (block_suggestion (.cstr "a") false)
        [("type", .vstr "dialog_suggestion"), ("callback_id", .vstr "c")]
      = .ok (some false) :=
  ⟨options_action_id_takes_precedence.1 _ _ (.cstr "c") false rfl rfl,
   options_action_id_takes_precedence.2 (.cstr "a") false _ rfl⟩

end SlackBolt
